import Mathlib

/-!
Verification of the Falcon IL core: shallow embedding of
`src/lib/il/instruction.rs` and `src/lib/analysis/calling_convention.rs`,
together with the parts of the data model (scalars, arrays, expressions,
operations, the partial boolean) those files consume.  Types whose defining
Rust module is not part of the sources at hand are modelled from the
specification and marked as such in their doc comments.
-/

namespace Falcon

/-- Modelled from the spec: `types::PartialBoolean` (the three-valued
classification `{True, False, Unknown}` of §3/§9; `types` is not among the
sources). -/
inductive PartialBoolean where
  | True
  | False
  | Unknown
deriving DecidableEq, Repr

/-- Modelled from the spec: `il::Constant` of §3 — a value `0..2^64` with a
bit width (`il/constant.rs` is not among the sources). -/
structure Constant where
  value : Nat
  bits : Nat
deriving DecidableEq, Repr

/-- Modelled from the spec: `il::Scalar` of §3 — a named bit-vector variable
with an optional SSA index (`il/scalar.rs` is not among the sources).  All
scalars compared in this development carry `bits = 32` and no SSA index, so
structural equality coincides with the spec's identity `(name, ssa_index)`. -/
structure Scalar where
  name : String
  bits : Nat
  ssa : Option Nat
deriving DecidableEq, Repr

/-- Modelled from the spec: `il::Array` of §3 — a named memory region with a
size in bytes (`il/array.rs` is not among the sources). -/
structure Array where
  name : String
  size : Nat
  ssa : Option Nat
deriving DecidableEq, Repr

/-- `il::scalar(name, bits)` convenience constructor (src/lib/il/mod.rs,
lines 235-237): a scalar with no SSA index. -/
def scalar (name : String) (bits : Nat) : Scalar :=
  { name := name, bits := bits, ssa := none }

/-- `il::array(name, size)` convenience constructor (src/lib/il/mod.rs,
lines 251-253). -/
def array (name : String) (size : Nat) : Array :=
  { name := name, size := size, ssa := none }

/-- Modelled from the spec: `il::Expression` of §3 — the closed tree of 21
forms (two terminals, twelve arithmetic/logical operators, four comparisons,
three width changers); `il/expression.rs` is not among the sources.  The
claims below use expressions only as opaque payloads of operations. -/
inductive Expression where
  | constant : Constant → Expression
  | scalar : Scalar → Expression
  | add : Expression → Expression → Expression
  | sub : Expression → Expression → Expression
  | mul : Expression → Expression → Expression
  | divu : Expression → Expression → Expression
  | modu : Expression → Expression → Expression
  | divs : Expression → Expression → Expression
  | mods : Expression → Expression → Expression
  | and : Expression → Expression → Expression
  | or : Expression → Expression → Expression
  | xor : Expression → Expression → Expression
  | shl : Expression → Expression → Expression
  | shr : Expression → Expression → Expression
  | cmpeq : Expression → Expression → Expression
  | cmpneq : Expression → Expression → Expression
  | cmplts : Expression → Expression → Expression
  | cmpltu : Expression → Expression → Expression
  | zext : Nat → Expression → Expression
  | sext : Nat → Expression → Expression
  | trun : Nat → Expression → Expression
deriving DecidableEq, Repr

/-- Modelled from the spec: `il::Operation` of §3 — the closed sum of the
five variants assign, store, load, brc, raise with the payloads listed there
(`il/operation.rs` is not among the sources). -/
inductive Operation where
  | Assign (dst : Scalar) (src : Expression)
  | Store (dst : Array) (index : Expression) (src : Expression)
  | Load (dst : Scalar) (index : Expression) (src : Array)
  | Brc (target : Expression) (condition : Expression)
  | Raise (expr : Expression)
deriving DecidableEq, Repr

/-- Modelled from the spec: `Operation::assign` constructor. -/
def Operation.assign (dst : Scalar) (src : Expression) : Operation :=
  Operation.Assign dst src

/-- Modelled from the spec: `Operation::store` constructor. -/
def Operation.store (dst : Array) (index : Expression) (src : Expression) :
    Operation :=
  Operation.Store dst index src

/-- Modelled from the spec: `Operation::load` constructor. -/
def Operation.load (dst : Scalar) (index : Expression) (src : Array) :
    Operation :=
  Operation.Load dst index src

/-- Modelled from the spec: `Operation::brc` constructor. -/
def Operation.brc (target : Expression) (condition : Expression) : Operation :=
  Operation.Brc target condition

/-- Modelled from the spec: `Operation::raise` constructor. -/
def Operation.raise (expr : Expression) : Operation :=
  Operation.Raise expr

/-- `ReturnAddressType` (src/lib/analysis/calling_convention.rs, lines
17-24): functions return via a register or via a stack slot at the given
byte offset. -/
inductive ReturnAddressType where
  | Register (s : Scalar)
  | Stack (offset : Nat)
deriving DecidableEq, Repr

/-- `ArgumentType` (src/lib/analysis/calling_convention.rs, lines 28-36):
an argument lives in a register or at a stack offset. -/
inductive ArgumentType where
  | Register (s : Scalar)
  | Stack (offset : Nat)
deriving DecidableEq, Repr

/-- `CallingConventionType` (src/lib/analysis/calling_convention.rs, lines
9-13). -/
inductive CallingConventionType where
  | MipsSystemV
  | MipselSystemV
  | Cdecl
deriving DecidableEq, Repr

/-- `CallingConvention` (src/lib/analysis/calling_convention.rs, lines
40-64).  The Rust `HashSet<il::Scalar>` fields are embedded as lists in
insertion order; only membership is ever consulted. -/
structure CallingConvention where
  argument_registers : List Scalar
  preserved_registers : List Scalar
  trashed_registers : List Scalar
  stack_argument_offset : Nat
  stack_argument_length : Nat
  return_address_type : ReturnAddressType
  return_register : Scalar
deriving Repr

/-- `CallingConvention::new` (src/lib/analysis/calling_convention.rs, lines
77-156). -/
def CallingConvention.new (typ : CallingConventionType) : CallingConvention :=
  match typ with
  | CallingConventionType.MipsSystemV
  | CallingConventionType.MipselSystemV =>
      { argument_registers :=
          [scalar "$a0" 32, scalar "$a1" 32, scalar "$a2" 32, scalar "$a3" 32],
        preserved_registers :=
          [scalar "$s0" 32, scalar "$s1" 32, scalar "$s2" 32, scalar "$s3" 32,
           scalar "$s4" 32, scalar "$s5" 32, scalar "$s6" 32, scalar "$s7" 32,
           scalar "$s8" 32, scalar "$sp" 32, scalar "$ra" 32],
        trashed_registers :=
          [scalar "$at" 32, scalar "$v0" 32, scalar "$v1" 32, scalar "$a0" 32,
           scalar "$a1" 32, scalar "$a2" 32, scalar "$a3" 32, scalar "$t0" 32,
           scalar "$t1" 32, scalar "$t2" 32, scalar "$t3" 32, scalar "$t4" 32,
           scalar "$t5" 32, scalar "$t6" 32, scalar "$t7" 32, scalar "$t8" 32,
           scalar "$t9" 32],
        stack_argument_offset := 0,
        stack_argument_length := 4,
        return_address_type := ReturnAddressType.Register (scalar "$ra" 32),
        return_register := scalar "$v0" 32 }
  | CallingConventionType.Cdecl =>
      { argument_registers := [],
        preserved_registers :=
          [scalar "ebx" 32, scalar "edi" 32, scalar "esi" 32,
           scalar "ebp" 32, scalar "esp" 32],
        trashed_registers :=
          [scalar "eax" 32, scalar "ecx" 32, scalar "edx" 32],
        stack_argument_offset := 4,
        stack_argument_length := 4,
        return_address_type := ReturnAddressType.Register (scalar "esp" 32),
        return_register := scalar "eax" 32 }

/-- `CallingConvention::argument_type` (src/lib/analysis/
calling_convention.rs, lines 200-209). -/
def CallingConvention.argument_type (cc : CallingConvention)
    (argument_number : Nat) : ArgumentType :=
  if h : cc.argument_registers.length ≤ argument_number then
    let n := argument_number - cc.argument_registers.length
    ArgumentType.Stack
      (cc.stack_argument_offset + cc.stack_argument_length * n)
  else
    ArgumentType.Register
      (cc.argument_registers.get ⟨argument_number, by omega⟩)

/-- `CallingConvention::is_preserved` (src/lib/analysis/
calling_convention.rs, lines 212-222). -/
def CallingConvention.is_preserved (cc : CallingConvention) (s : Scalar) :
    PartialBoolean :=
  if s ∈ cc.preserved_registers then
    PartialBoolean.True
  else if s ∈ cc.trashed_registers then
    PartialBoolean.False
  else
    PartialBoolean.Unknown

/-- `CallingConvention::is_trashed` (src/lib/analysis/
calling_convention.rs, lines 225-235). -/
def CallingConvention.is_trashed (cc : CallingConvention) (s : Scalar) :
    PartialBoolean :=
  if s ∈ cc.trashed_registers then
    PartialBoolean.True
  else if s ∈ cc.preserved_registers then
    PartialBoolean.False
  else
    PartialBoolean.Unknown

/-- `Instruction` (src/lib/il/instruction.rs, lines 17-22): an operation
together with its in-block index, optional comment and optional address. -/
structure Instruction where
  operation : Operation
  index : Nat
  comment : Option String
  address : Option Nat
deriving DecidableEq, Repr

/-- `Instruction::new` (src/lib/il/instruction.rs, lines 32-39). -/
def Instruction.new (index : Nat) (operation : Operation) : Instruction :=
  { operation := operation, index := index, comment := none, address := none }

/-- `Instruction::assign` (src/lib/il/instruction.rs, lines 47-49). -/
def Instruction.assign (index : Nat) (dst : Scalar) (src : Expression) :
    Instruction :=
  Instruction.new index (Operation.assign dst src)

/-- `Instruction::store` (src/lib/il/instruction.rs, lines 57-65). -/
def Instruction.store (instruction_index : Nat) (dst : Array)
    (dst_index : Expression) (src : Expression) : Instruction :=
  Instruction.new instruction_index (Operation.store dst dst_index src)

/-- `Instruction::load` (src/lib/il/instruction.rs, lines 73-81). -/
def Instruction.load (instruction_index : Nat) (dst : Scalar)
    (src_index : Expression) (src : Array) : Instruction :=
  Instruction.new instruction_index (Operation.load dst src_index src)

/-- `Instruction::brc` (src/lib/il/instruction.rs, lines 89-93). -/
def Instruction.brc (index : Nat) (target : Expression)
    (condition : Expression) : Instruction :=
  Instruction.new index (Operation.brc target condition)

/-- `Instruction::raise` (src/lib/il/instruction.rs, lines 101-103). -/
def Instruction.raise (index : Nat) (expr : Expression) : Instruction :=
  Instruction.new index (Operation.Raise expr)

/-- `Instruction::is_assign` (src/lib/il/instruction.rs, lines 107-114). -/
def Instruction.is_assign (i : Instruction) : Bool :=
  match i.operation with
  | Operation.Assign _ _ => true
  | _ => false

/-- `Instruction::is_store` (src/lib/il/instruction.rs, lines 117-124). -/
def Instruction.is_store (i : Instruction) : Bool :=
  match i.operation with
  | Operation.Store _ _ _ => true
  | _ => false

/-- `Instruction::is_load` (src/lib/il/instruction.rs, lines 127-134). -/
def Instruction.is_load (i : Instruction) : Bool :=
  match i.operation with
  | Operation.Load _ _ _ => true
  | _ => false

/-- `Instruction::is_brc` (src/lib/il/instruction.rs, lines 137-144). -/
def Instruction.is_brc (i : Instruction) : Bool :=
  match i.operation with
  | Operation.Brc _ _ => true
  | _ => false

/-- `Instruction::is_raise` (src/lib/il/instruction.rs, lines 147-154). -/
def Instruction.is_raise (i : Instruction) : Bool :=
  match i.operation with
  | Operation.Raise _ => true
  | _ => false

/-- `Instruction::set_comment` (src/lib/il/instruction.rs, lines 181-183),
as a functional update of the receiver. -/
def Instruction.set_comment (i : Instruction) (comment : Option String) :
    Instruction :=
  { i with comment := comment }

/-- `Instruction::set_address` (src/lib/il/instruction.rs, lines 196-198),
as a functional update of the receiver. -/
def Instruction.set_address (i : Instruction) (address : Option Nat) :
    Instruction :=
  { i with address := address }

/-- `Instruction::clone_new_index` (src/lib/il/instruction.rs, lines
201-208). -/
def Instruction.clone_new_index (i : Instruction) (index : Nat) :
    Instruction :=
  { operation := i.operation, index := index, comment := i.comment,
    address := i.address }

/-- Rust `{:X}` on an unsigned integer: uppercase hexadecimal digits, no
leading zeros (a lone `0` for zero). -/
def formatHexUpper (n : Nat) : String :=
  String.mk ((Nat.toDigits 16 n).map Char.toUpper)

/-- Rust `{:02X}`: uppercase hexadecimal padded with leading zeros to a
minimum width of two. -/
def formatHexUpper02 (n : Nat) : String :=
  let s := formatHexUpper n
  if s.length < 2 then "0" ++ s else s

/-- Modelled from the spec: rendering of a scalar, with its width shown
(§6: "Width is shown on scalars and constants where disambiguation is
useful"); `il/scalar.rs` is not among the sources. -/
def Scalar.display (s : Scalar) : String :=
  s.name ++ ":" ++ toString s.bits

/-- Modelled from the spec: rendering of an array reference (`il/array.rs`
is not among the sources). -/
def Array.display (a : Array) : String :=
  a.name

/-- Modelled from the spec: rendering of an expression tree in conventional
infix form (`il/expression.rs` is not among the sources). -/
def Expression.display : Expression → String
  | Expression.constant c =>
      "0x" ++ formatHexUpper c.value ++ ":" ++ toString c.bits
  | Expression.scalar s => s.display
  | Expression.add a b => "(" ++ a.display ++ " + " ++ b.display ++ ")"
  | Expression.sub a b => "(" ++ a.display ++ " - " ++ b.display ++ ")"
  | Expression.mul a b => "(" ++ a.display ++ " * " ++ b.display ++ ")"
  | Expression.divu a b => "(" ++ a.display ++ " /u " ++ b.display ++ ")"
  | Expression.modu a b => "(" ++ a.display ++ " %u " ++ b.display ++ ")"
  | Expression.divs a b => "(" ++ a.display ++ " /s " ++ b.display ++ ")"
  | Expression.mods a b => "(" ++ a.display ++ " %s " ++ b.display ++ ")"
  | Expression.and a b => "(" ++ a.display ++ " & " ++ b.display ++ ")"
  | Expression.or a b => "(" ++ a.display ++ " | " ++ b.display ++ ")"
  | Expression.xor a b => "(" ++ a.display ++ " ^ " ++ b.display ++ ")"
  | Expression.shl a b => "(" ++ a.display ++ " << " ++ b.display ++ ")"
  | Expression.shr a b => "(" ++ a.display ++ " >> " ++ b.display ++ ")"
  | Expression.cmpeq a b => "(" ++ a.display ++ " == " ++ b.display ++ ")"
  | Expression.cmpneq a b => "(" ++ a.display ++ " != " ++ b.display ++ ")"
  | Expression.cmplts a b => "(" ++ a.display ++ " <s " ++ b.display ++ ")"
  | Expression.cmpltu a b => "(" ++ a.display ++ " <u " ++ b.display ++ ")"
  | Expression.zext n a => "zext." ++ toString n ++ "(" ++ a.display ++ ")"
  | Expression.sext n a => "sext." ++ toString n ++ "(" ++ a.display ++ ")"
  | Expression.trun n a => "trun." ++ toString n ++ "(" ++ a.display ++ ")"

/-- Modelled from the spec: the operation's conventional textual form (§6;
`il/operation.rs` is not among the sources).  The rendering claims below
are insensitive to this text: they constrain only the instruction wrapper
around it. -/
def Operation.display : Operation → String
  | Operation.Assign dst src => dst.display ++ " = " ++ src.display
  | Operation.Store dst index src =>
      dst.display ++ "[" ++ index.display ++ "] = " ++ src.display
  | Operation.Load dst index src =>
      dst.display ++ " = " ++ src.display ++ "[" ++ index.display ++ "]"
  | Operation.Brc target condition =>
      "brc " ++ target.display ++ " ? " ++ condition.display
  | Operation.Raise expr => "raise " ++ expr.display

/-- `impl fmt::Display for Instruction` (src/lib/il/instruction.rs, lines
241-256): `{:X} {:02X} {}` of address, index and operation when the address
is present, `{:02X} {}` otherwise, followed by ` // {comment}` when a
comment is present. -/
def Instruction.display (i : Instruction) : String :=
  let pre :=
    match i.address with
    | some address =>
        formatHexUpper address ++ " " ++ formatHexUpper02 i.index ++ " " ++
          i.operation.display
    | none => formatHexUpper02 i.index ++ " " ++ i.operation.display
  match i.comment with
  | some comment => pre ++ " // " ++ comment
  | none => pre

/-- An assign instruction used by the rendering scenarios: index 3,
destination `temp:32`, source the scalar `eax:32`, no comment, no
address. -/
def exampleAssign : Instruction :=
  Instruction.assign 3 (scalar "temp" 32) (Expression.scalar (scalar "eax" 32))

end Falcon

open Falcon

/-- C1: for `CallingConvention::new(MipsSystemV)`, `is_preserved` classifies
`$s3` as `True`, `$t0` as `False` and `$gp` as `Unknown`, while
`argument_type` yields the register `$a0` for argument 0, stack offset 0
for argument 4 and stack offset 4 for argument 5. -/
theorem mips_systemv_classification :
    (CallingConvention.new CallingConventionType.MipsSystemV).is_preserved
        (scalar "$s3" 32) = PartialBoolean.True ∧
    (CallingConvention.new CallingConventionType.MipsSystemV).is_preserved
        (scalar "$t0" 32) = PartialBoolean.False ∧
    (CallingConvention.new CallingConventionType.MipsSystemV).is_preserved
        (scalar "$gp" 32) = PartialBoolean.Unknown ∧
    (CallingConvention.new CallingConventionType.MipsSystemV).argument_type 0 =
        ArgumentType.Register (scalar "$a0" 32) ∧
    (CallingConvention.new CallingConventionType.MipsSystemV).argument_type 4 =
        ArgumentType.Stack 0 ∧
    (CallingConvention.new CallingConventionType.MipsSystemV).argument_type 5 =
        ArgumentType.Stack 4 := by
  decide

/-- C2: for `CallingConvention::new(Cdecl)`, all arguments are on the stack
(`argument_type(0)` = offset 4, `argument_type(2)` = offset 12), the return
register is `eax:32`, and `is_trashed` classifies `eax` as `True` and `ebx`
as `False`. -/
theorem cdecl_classification :
    (CallingConvention.new CallingConventionType.Cdecl).argument_type 0 =
        ArgumentType.Stack 4 ∧
    (CallingConvention.new CallingConventionType.Cdecl).argument_type 2 =
        ArgumentType.Stack 12 ∧
    (CallingConvention.new CallingConventionType.Cdecl).return_register =
        scalar "eax" 32 ∧
    (CallingConvention.new CallingConventionType.Cdecl).is_trashed
        (scalar "eax" 32) = PartialBoolean.True ∧
    (CallingConvention.new CallingConventionType.Cdecl).is_trashed
        (scalar "ebx" 32) = PartialBoolean.False := by
  decide

/-- C3: for every calling convention and argument number `n`,
`argument_type(n)` is the `n`-th argument register when `n` is within the
argument-register list, and otherwise the stack slot at
`stack_argument_offset + stack_argument_length * (n - argument_registers.len())`. -/
theorem argument_type_register_or_stack (cc : CallingConvention) (n : Nat) :
    (∀ h : n < cc.argument_registers.length,
      cc.argument_type n =
        ArgumentType.Register (cc.argument_registers.get ⟨n, h⟩)) ∧
    (cc.argument_registers.length ≤ n →
      cc.argument_type n =
        ArgumentType.Stack
          (cc.stack_argument_offset +
            cc.stack_argument_length * (n - cc.argument_registers.length))) := by
  constructor
  · intro h
    unfold CallingConvention.argument_type
    rw [dif_neg (by omega)]
  · intro h
    unfold CallingConvention.argument_type
    rw [dif_pos h]

/-- Witness for C3: both branches of the characterization at concrete
inputs (MIPS argument 1 is in register `$a1`; argument 5 is the stack slot
at offset 4). -/
theorem argument_type_register_or_stack_witness :
    (CallingConvention.new CallingConventionType.MipsSystemV).argument_type 1 =
        ArgumentType.Register (scalar "$a1" 32) ∧
    (CallingConvention.new CallingConventionType.MipsSystemV).argument_type 5 =
        ArgumentType.Stack 4 := by
  constructor
  · have h :=
      (argument_type_register_or_stack
        (CallingConvention.new CallingConventionType.MipsSystemV) 1).1
        (by decide)
    exact h.trans (by decide)
  · have h :=
      (argument_type_register_or_stack
        (CallingConvention.new CallingConventionType.MipsSystemV) 5).2
        (by decide)
    exact h.trans (by decide)

/-- C4: for every convention kind, the preserved and trashed register sets
are disjoint, and `is_preserved`/`is_trashed` are consistent: `True`/`False`
on a preserved scalar, `False`/`True` on a trashed scalar, and
`Unknown`/`Unknown` on a scalar in neither set. -/
theorem calling_convention_classification_consistent
    (typ : CallingConventionType) (s : Scalar) :
    (∀ p ∈ (CallingConvention.new typ).preserved_registers,
        p ∉ (CallingConvention.new typ).trashed_registers) ∧
    (s ∈ (CallingConvention.new typ).preserved_registers →
      (CallingConvention.new typ).is_preserved s = PartialBoolean.True ∧
      (CallingConvention.new typ).is_trashed s = PartialBoolean.False) ∧
    (s ∈ (CallingConvention.new typ).trashed_registers →
      (CallingConvention.new typ).is_preserved s = PartialBoolean.False ∧
      (CallingConvention.new typ).is_trashed s = PartialBoolean.True) ∧
    (s ∉ (CallingConvention.new typ).preserved_registers →
      s ∉ (CallingConvention.new typ).trashed_registers →
      (CallingConvention.new typ).is_preserved s = PartialBoolean.Unknown ∧
      (CallingConvention.new typ).is_trashed s = PartialBoolean.Unknown) := by
  have hdisj : ∀ p ∈ (CallingConvention.new typ).preserved_registers,
      p ∉ (CallingConvention.new typ).trashed_registers := by
    cases typ <;> decide
  refine ⟨hdisj, ?_, ?_, ?_⟩
  · intro hs
    have hns : s ∉ (CallingConvention.new typ).trashed_registers := hdisj s hs
    constructor
    · simp [CallingConvention.is_preserved, hs]
    · simp [CallingConvention.is_trashed, hs, hns]
  · intro ht
    have hnp : s ∉ (CallingConvention.new typ).preserved_registers :=
      fun hp => hdisj s hp ht
    constructor
    · simp [CallingConvention.is_preserved, ht, hnp]
    · simp [CallingConvention.is_trashed, ht]
  · intro hnp hnt
    constructor
    · simp [CallingConvention.is_preserved, hnp, hnt]
    · simp [CallingConvention.is_trashed, hnp, hnt]

/-- Witness for C4: the consistency statement instantiated at Cdecl with a
preserved scalar (`edi`), a trashed scalar (`ecx`) and a scalar in neither
set (`eip`). -/
theorem calling_convention_classification_consistent_witness :
    (CallingConvention.new CallingConventionType.Cdecl).is_preserved
        (scalar "edi" 32) = PartialBoolean.True ∧
    (CallingConvention.new CallingConventionType.Cdecl).is_trashed
        (scalar "edi" 32) = PartialBoolean.False ∧
    (CallingConvention.new CallingConventionType.Cdecl).is_preserved
        (scalar "ecx" 32) = PartialBoolean.False ∧
    (CallingConvention.new CallingConventionType.Cdecl).is_trashed
        (scalar "ecx" 32) = PartialBoolean.True ∧
    (CallingConvention.new CallingConventionType.Cdecl).is_preserved
        (scalar "eip" 32) = PartialBoolean.Unknown := by
  have h1 :=
    (calling_convention_classification_consistent
      CallingConventionType.Cdecl (scalar "edi" 32)).2.1 (by decide)
  have h2 :=
    (calling_convention_classification_consistent
      CallingConventionType.Cdecl (scalar "ecx" 32)).2.2.1 (by decide)
  have h3 :=
    (calling_convention_classification_consistent
      CallingConventionType.Cdecl (scalar "eip" 32)).2.2.2
      (by decide) (by decide)
  exact ⟨h1.1, h1.2, h2.1, h2.2, h3.1⟩

/-- C7: `CallingConvention::new(Cdecl)` records its return address in the
`Register` variant carrying the scalar `esp:32` (not in a `Stack`
variant). -/
theorem cdecl_return_address_in_esp_register :
    (CallingConvention.new CallingConventionType.Cdecl).return_address_type =
      ReturnAddressType.Register (scalar "esp" 32) := by
  decide

/-- C5: the Display rendering of an assign instruction at index 3: with
address `0x401000` and no comment it is the prefix `401000 03 ` followed by
the operation text; adding comment `entry` appends ` // entry`; with no
address the prefix is `03 `. -/
theorem instruction_display_forms :
    (exampleAssign.set_address (some 0x401000)).display =
      "401000 03 " ++ exampleAssign.operation.display ∧
    ((exampleAssign.set_address (some 0x401000)).set_comment
        (some "entry")).display =
      "401000 03 " ++ exampleAssign.operation.display ++ " // entry" ∧
    exampleAssign.display = "03 " ++ exampleAssign.operation.display :=
  ⟨rfl, rfl, rfl⟩

/-- C6: `clone_new_index` yields an instruction whose index is the new one
and whose operation, comment and address are those of the original. -/
theorem clone_new_index_spec (i : Instruction) (n : Nat) :
    (i.clone_new_index n).index = n ∧
    (i.clone_new_index n).operation = i.operation ∧
    (i.clone_new_index n).comment = i.comment ∧
    (i.clone_new_index n).address = i.address :=
  ⟨rfl, rfl, rfl, rfl⟩

/-- C8: the operation of an instruction is a closed sum of five variants,
so exactly one of the predicates `is_assign`, `is_store`, `is_load`,
`is_brc`, `is_raise` holds. -/
theorem exactly_one_operation_predicate (i : Instruction) :
    [i.is_assign, i.is_store, i.is_load, i.is_brc, i.is_raise].count true
      = 1 := by
  obtain ⟨op, idx, c, a⟩ := i
  cases op <;> rfl

/-- C9: instructions built by `Instruction::new` and by the per-variant
constructors `assign`, `store`, `load`, `brc`, `raise` all start with no
comment and no address. -/
theorem constructors_no_comment_no_address
    (index : Nat) (op : Operation) (dst : Scalar) (src : Expression)
    (arr : Falcon.Array) (ie : Expression) (target : Expression)
    (cond : Expression) (e : Expression) :
    ((Instruction.new index op).comment = none ∧
      (Instruction.new index op).address = none) ∧
    ((Instruction.assign index dst src).comment = none ∧
      (Instruction.assign index dst src).address = none) ∧
    ((Instruction.store index arr ie src).comment = none ∧
      (Instruction.store index arr ie src).address = none) ∧
    ((Instruction.load index dst ie arr).comment = none ∧
      (Instruction.load index dst ie arr).address = none) ∧
    ((Instruction.brc index target cond).comment = none ∧
      (Instruction.brc index target cond).address = none) ∧
    ((Instruction.raise index e).comment = none ∧
      (Instruction.raise index e).address = none) :=
  ⟨⟨rfl, rfl⟩, ⟨rfl, rfl⟩, ⟨rfl, rfl⟩, ⟨rfl, rfl⟩, ⟨rfl, rfl⟩, ⟨rfl, rfl⟩⟩

/-- C10: `set_comment` installs the comment and leaves operation, index and
address unchanged; `set_address` installs the address and leaves operation,
index and comment unchanged. -/
theorem set_comment_set_address_frame (i : Instruction) (c : Option String)
    (a : Option Nat) :
    ((i.set_comment c).comment = c ∧
      (i.set_comment c).operation = i.operation ∧
      (i.set_comment c).index = i.index ∧
      (i.set_comment c).address = i.address) ∧
    ((i.set_address a).address = a ∧
      (i.set_address a).operation = i.operation ∧
      (i.set_address a).index = i.index ∧
      (i.set_address a).comment = i.comment) :=
  ⟨⟨rfl, rfl, rfl, rfl⟩, ⟨rfl, rfl, rfl, rfl⟩⟩
